import Mathlib

/-!
Shallow embedding of `xenonpy/model/nn/runner.py` (class `ModelRunner`).

The runner is orchestration glue over torch: it holds configuration
scalars and transient references to the active model / loss / optimizer,
and sequences input conversion, device placement, optimizer construction,
an epoch loop and checkpoint persistence.  External collaborators
(the `Checker`, torch autograd, sklearn metrics, joblib) are modelled as
behaviour functions supplied through an environment record; every such
call returns `Except PyErr _` so that library exceptions propagate
through the embedding exactly as Python exceptions do.  Python mutation
of `self` is modelled by explicit state passing: each method returns the
post-state of the runner next to its `Except` outcome.
-/

namespace XenonPy

/-- Python exception values as observed by callers of the runner.
`libraryError` stands for an arbitrary exception object raised inside an
external library call, identified by an opaque tag. -/
inductive PyErr where
  | valueError (msg : String)
  | typeError (msg : String)
  | attributeError (msg : String)
  | libraryError (tag : String)
deriving DecidableEq, Repr

/-- Data arguments accepted by `fit`/`predict`.  `ndarray`/`dataFrame`
carry an opaque payload identity; `other` models a value of any other
Python type (e.g. a plain list), whose class name is recorded for the
error message and which, like a list, has no `ravel` attribute. -/
inductive PyData where
  | ndarray (id : Nat)
  | dataFrame (id : Nat)
  | other (typeName : String)
deriving DecidableEq, Repr

/-- Rendering of `type(data)` as it appears in the `_d2tv` error message. -/
def PyData.typeName : PyData → String
  | .ndarray _ => "numpy.ndarray"
  | .dataFrame _ => "pandas.DataFrame"
  | .other t => t

/-- A torch tensor wrapped in `Variable` (payload identity only;
numeric content is irrelevant to the control flow of the runner). -/
structure Tensor where
  payload : Nat
  requiresGrad : Bool
deriving DecidableEq, Repr

/-- Model of `str.lower()` as the runner uses it on the `ctx` string: per-character
ASCII lowercasing (kernel-reducible, unlike `String.toLower`). -/
def pyLower (s : String) : String := ⟨s.data.map Char.toLower⟩

/-- Behaviour of `y_test.ravel()`: defined on `ndarray`; a `DataFrame` or any other
object (list, int, ...) has no `ravel` attribute. -/
def PyData.ravelE : PyData → Except PyErr Nat
  | .ndarray id => .ok id
  | .dataFrame _ => .error (.attributeError "DataFrame object has no attribute ravel")
  | .other t => .error (.attributeError (t ++ " object has no attribute ravel"))

/-! ### MD5 (used by `__call__` to derive the default model name)

Faithful executable implementation over byte lists, `Nat` arithmetic
modulo 2^32 throughout. -/

/-- The 64 per-round additive constants `floor(abs(sin(i+1)) * 2^32)`. -/
def md5K : List Nat :=
  [0xd76aa478, 0xe8c7b756, 0x242070db, 0xc1bdceee,
   0xf57c0faf, 0x4787c62a, 0xa8304613, 0xfd469501,
   0x698098d8, 0x8b44f7af, 0xffff5bb1, 0x895cd7be,
   0x6b901122, 0xfd987193, 0xa679438e, 0x49b40821,
   0xf61e2562, 0xc040b340, 0x265e5a51, 0xe9b6c7aa,
   0xd62f105d, 0x02441453, 0xd8a1e681, 0xe7d3fbc8,
   0x21e1cde6, 0xc33707d6, 0xf4d50d87, 0x455a14ed,
   0xa9e3e905, 0xfcefa3f8, 0x676f02d9, 0x8d2a4c8a,
   0xfffa3942, 0x8771f681, 0x6d9d6122, 0xfde5380c,
   0xa4beea44, 0x4bdecfa9, 0xf6bb4b60, 0xbebfbc70,
   0x289b7ec6, 0xeaa127fa, 0xd4ef3085, 0x04881d05,
   0xd9d4d039, 0xe6db99e5, 0x1fa27cf8, 0xc4ac5665,
   0xf4292244, 0x432aff97, 0xab9423a7, 0xfc93a039,
   0x655b59c3, 0x8f0ccc92, 0xffeff47d, 0x85845dd1,
   0x6fa87e4f, 0xfe2ce6e0, 0xa3014314, 0x4e0811a1,
   0xf7537e82, 0xbd3af235, 0x2ad7d2bb, 0xeb86d391]

/-- The 64 per-round left-rotation amounts. -/
def md5S : List Nat :=
  [7, 12, 17, 22, 7, 12, 17, 22, 7, 12, 17, 22, 7, 12, 17, 22,
   5, 9, 14, 20, 5, 9, 14, 20, 5, 9, 14, 20, 5, 9, 14, 20,
   4, 11, 16, 23, 4, 11, 16, 23, 4, 11, 16, 23, 4, 11, 16, 23,
   6, 10, 15, 21, 6, 10, 15, 21, 6, 10, 15, 21, 6, 10, 15, 21]

/-- Left rotation of a 32-bit word (input assumed < 2^32). -/
def rotl32 (x n : Nat) : Nat :=
  ((x <<< n) ||| (x >>> (32 - n))) % 4294967296

/-- Round function and message-word index for round `i`. -/
def md5FG (i b c d : Nat) : Nat × Nat :=
  if i < 16 then ((b &&& c) ||| ((b ^^^ 0xffffffff) &&& d), i)
  else if i < 32 then ((d &&& b) ||| ((d ^^^ 0xffffffff) &&& c), (5 * i + 1) % 16)
  else if i < 48 then (b ^^^ c ^^^ d, (3 * i + 5) % 16)
  else (c ^^^ (b ||| (d ^^^ 0xffffffff)), (7 * i) % 16)

/-- MD5 padding: append `0x80`, zero-pad to 56 mod 64, then the original
bit length as 8 little-endian bytes. -/
def md5Pad (bytes : List Nat) : List Nat :=
  let len := bytes.length
  let k := (56 - ((len + 1) % 64) + 64) % 64
  bytes ++ [0x80] ++ List.replicate k 0 ++
    ((List.range 8).map fun i => ((len * 8) >>> (8 * i)) % 256)

/-- Process the 64-byte block of `msg` starting at `base`. -/
def md5Block (msg : List Nat) (base : Nat) (st : Nat × Nat × Nat × Nat) :
    Nat × Nat × Nat × Nat :=
  let word := fun g =>
    msg.getD (base + 4 * g) 0 + (msg.getD (base + 4 * g + 1) 0) <<< 8 +
      (msg.getD (base + 4 * g + 2) 0) <<< 16 + (msg.getD (base + 4 * g + 3) 0) <<< 24
  let inner := (List.range 64).foldl
    (fun abcd i =>
      let a := abcd.1
      let b := abcd.2.1
      let c := abcd.2.2.1
      let d := abcd.2.2.2
      let fg := md5FG i b c d
      let tmp := (fg.1 + a + md5K.getD i 0 + word fg.2) % 4294967296
      (d, (b + rotl32 tmp (md5S.getD i 0)) % 4294967296, b, c))
    st
  ((st.1 + inner.1) % 4294967296,
   (st.2.1 + inner.2.1) % 4294967296,
   (st.2.2.1 + inner.2.2.1) % 4294967296,
   (st.2.2.2 + inner.2.2.2) % 4294967296)

/-- MD5 digest of a byte list, as the four 32-bit state words. -/
def md5Digest (bytes : List Nat) : Nat × Nat × Nat × Nat :=
  let padded := md5Pad bytes
  (List.range (padded.length / 64)).foldl
    (fun st b => md5Block padded (64 * b) st)
    (0x67452301, 0xefcdab89, 0x98badcfe, 0x10325476)

/-- Lowercase hexadecimal digit. -/
def hexDigit (n : Nat) : String :=
  (["0", "1", "2", "3", "4", "5", "6", "7",
    "8", "9", "a", "b", "c", "d", "e", "f"]).getD n "0"

/-- Two-digit hexadecimal rendering of a byte. -/
def byteHex (b : Nat) : String :=
  hexDigit (b / 16 % 16) ++ hexDigit (b % 16)

/-- A 32-bit word rendered as 8 hex digits, little-endian byte order
(as in MD5 digests). -/
def wordLEHex (w : Nat) : String :=
  String.join ((List.range 4).map fun i => byteHex ((w >>> (8 * i)) % 256))

/-- UTF-8 encoding of one character. -/
def utf8Bytes (c : Char) : List Nat :=
  let n := c.toNat
  if n < 0x80 then [n]
  else if n < 0x800 then [0xc0 ||| (n >>> 6), 0x80 ||| (n &&& 0x3f)]
  else if n < 0x10000 then
    [0xe0 ||| (n >>> 12), 0x80 ||| ((n >>> 6) &&& 0x3f), 0x80 ||| (n &&& 0x3f)]
  else
    [0xf0 ||| (n >>> 18), 0x80 ||| ((n >>> 12) &&& 0x3f),
     0x80 ||| ((n >>> 6) &&& 0x3f), 0x80 ||| (n &&& 0x3f)]

/-- UTF-8 bytes of a string (`str.encode()` in Python). -/
def strBytes (s : String) : List Nat :=
  s.data.flatMap utf8Bytes

/-- Computes `md5(s.encode()).hexdigest()`. -/
def md5Hex (s : String) : String :=
  let d := md5Digest (strBytes s)
  wordLEHex d.1 ++ wordLEHex d.2.1 ++ wordLEHex d.2.2.1 ++ wordLEHex d.2.2.2

/-! ### Collaborators of the runner -/

/-- A torch model object.  `isNNModule` is the `isinstance(model, nn.Module)`
test; `repr` is `str(model)`; `paramsId`/`stateDictId` are opaque handles for
`model.parameters()` and `model.state_dict()`; `forwardE` is the behaviour of
`model(input)` (indexed by how many training steps were taken, so an epoch
index, and the input payload), which may raise. -/
structure PyModel where
  isNNModule : Bool
  typeName : String
  repr : String
  paramsId : Nat
  stateDictId : Nat
  forwardE : Nat → Nat → Except PyErr Nat

/-- The value returned by a loss function: `loss.data[0]` plus the behaviour
of `loss.backward()`. -/
structure Loss where
  data0 : Nat
  backwardE : Except PyErr Unit

/-- Behaviour of `self.loss_func(y_pred, y_train)`, by payload identities. -/
def LossFn : Type := Nat → Nat → Except PyErr Loss

/-- A constructed optimizer: behaviours of `optim.zero_grad()` and
`optim.step()` at each epoch. -/
structure Optim where
  zeroGradE : Nat → Except PyErr Unit
  stepE : Nat → Except PyErr Unit

/-- Behaviour of `self.optim(self.model.parameters(), lr=self.lr)`. -/
def OptimCtor : Type := Nat → Option Rat → Except PyErr Optim

/-- A constructed learning-rate scheduler: whether it is a
`ReduceLROnPlateau` instance, and the behaviour of `scheduler.step()`
at each epoch. -/
structure Sched where
  isPlateau : Bool
  stepE : Nat → Except PyErr Unit

/-- Behaviour of `self.lr_scheduler(optim)`: invoked once; may raise. -/
def SchedCtor : Type := Except PyErr Sched

/-- The `Checker` collaborator object (external to the source in this file);
the runner only constructs it from the model name and `self.work_dir`
and reads back `.name`. -/
structure Checker where
  name : String
  workDir : Option String
deriving DecidableEq, Repr

/-- One keyword-argument persistence call on the `Checker` collaborator. -/
inductive CheckerCall where
  | initModel (modelRepr : String)
  | trainInputs (x y : PyData)
  | checkpoint (modelStateId : Nat) (epoch : Nat) (loss : Nat)
  | finalSave (modelStateId : Nat) (epochs : Nat) (loss : Nat)
  | testInputs (x y : PyData)
  | summary (layers name : String) (mae r2 pr pval : Nat)
deriving DecidableEq, Repr

/-- External-world behaviour: CUDA availability, the persistence behaviour
of the checker,
behaviour, the sklearn/scipy metric computations of `predict` (collapsed
into one call returning `(mae, r2, pearsonr, p-value)` as opaque handles),
and the `joblib.dump` write. -/
structure Env where
  cudaAvailable : Bool
  checkerE : CheckerCall → Except PyErr Unit
  metricsE : Nat → Nat → Except PyErr (Nat × Nat × Nat × Nat)
  joblibE : String → Except PyErr Unit

/-- Observable actions of one runner method call, in execution order. -/
inductive Event where
  | checkerWrite (c : CheckerCall)
  | convert (arg : String)
  | applyInitWeight
  | modelCuda
  | modelCpu
  | tensorCuda (arg : String)
  | warnMsg (category msg : String)
  | optimConstructed
  | schedConstructed
  | schedStep (t : Nat)
  | forwardPass (t : Nat)
  | lossComputed (t : Nat)
  | zeroGrad (t : Nat)
  | backwardPass (t : Nat)
  | optimStepped (t : Nat)
  | logPrint (t : Nat)
  | metricsComputed
deriving DecidableEq, Repr

/-! ### The `ModelRunner` state -/

/-- The attributes of a `ModelRunner` instance: the configuration scalars
set by `__init__` and the transient references set by `__call__`. -/
structure ModelRunner where
  verbose : Bool
  check_step : Int
  ctx : String
  epochs : Nat
  log_step : Int
  work_dir : Option String
  checker : Option Checker
  model : Option PyModel
  model_name : Option String
  loss_func : Option LossFn
  optim : Option OptimCtor
  lr : Option Rat
  lr_scheduler : Option SchedCtor

namespace ModelRunner

/-- Translation of `__init__`: stores the configuration and sets every transient
reference to `None`. -/
def init (epochs : Nat) (ctx : String) (check_step log_step : Int)
    (work_dir : Option String) (verbose : Bool) : ModelRunner :=
  { verbose := verbose
    check_step := check_step
    ctx := ctx
    epochs := epochs
    log_step := log_step
    work_dir := work_dir
    checker := none
    model := none
    model_name := none
    loss_func := none
    optim := none
    lr := none
    lr_scheduler := none }

/-- Translation of `_d2tv`: accepts a `DataFrame` (via `as_matrix`) or an `ndarray`,
converts to a float tensor wrapped in `Variable(_, requires_grad=False)`,
and raises `ValueError` on any other type. -/
def d2tv (data : PyData) : Except PyErr Tensor :=
  match data with
  | .dataFrame id => .ok ⟨id, false⟩
  | .ndarray id => .ok ⟨id, false⟩
  | .other _ =>
      .error (.valueError
        ("need to be <numpy.ndarray> or <pandas.DataFrame> but got " ++ data.typeName))

/-- Translation of `__call__`: validates that the model is an `nn.Module` (raising
`ValueError` before anything is assigned), derives the model name
(MD5 of `str(model)` when `name` is falsy), optionally applies the
weight initializer, then assigns the transient references and registers
the initial model with a fresh `Checker`. -/
def call (r : ModelRunner) (env : Env) (model : PyModel) (name : Option String)
    (initWeight : Bool) (loss_func : Option LossFn) (optimC : Option OptimCtor)
    (lr : Rat) (lr_scheduler : Option SchedCtor) :
    ModelRunner × Except PyErr (List Event) :=
  if ¬ model.isNNModule then
    (r, .error (.valueError
      ("Runner need a torch.nn.Module instance as first parameter but got " ++
        model.typeName)))
  else
    let name' := match name with
      | none => md5Hex model.repr
      | some s => if s = "" then md5Hex model.repr else s
    let evInit : List Event := if initWeight then [Event.applyInitWeight] else []
    let c : Checker := ⟨name', r.work_dir⟩
    let r' := { r with
      checker := some c
      model := some model
      model_name := some name'
      loss_func := loss_func
      optim := optimC
      lr := some lr
      lr_scheduler := lr_scheduler }
    match env.checkerE (.initModel model.repr) with
    | .error e => (r', .error e)
    | .ok _ => (r', .ok (evInit ++ [Event.checkerWrite (.initModel model.repr)]))

end ModelRunner

/-- One iteration of the training loop at epoch `t`: optional scheduler
pre-step, forward pass, loss computation, optional plateau scheduler step,
`zero_grad`, backward pass, optimizer step, conditional loss logging and
conditional checkpoint write.  `loss_func` being `None` fails only here,
when first called. -/
def epochBody (env : Env) (m : PyModel) (lf? : Option LossFn) (optim : Optim)
    (sched : Option Sched) (log_step check_step : Int) (xId yId t : Nat) :
    Except PyErr (Loss × List Event) :=
  (match sched with
    | some s =>
        if s.isPlateau then (pure [] : Except PyErr (List Event))
        else s.stepE t >>= fun _ => pure [Event.schedStep t]
    | none => pure []) >>= fun evPre =>
  m.forwardE t xId >>= fun predId =>
  (match lf? with
    | none => Except.error (.typeError "NoneType object is not callable")
    | some lf => lf predId yId) >>= fun loss =>
  (match sched with
    | some s =>
        if s.isPlateau then s.stepE t >>= fun _ => pure [Event.schedStep t]
        else (pure [] : Except PyErr (List Event))
    | none => pure []) >>= fun evPlateau =>
  optim.zeroGradE t >>= fun _ =>
  loss.backwardE >>= fun _ =>
  optim.stepE t >>= fun _ =>
  (if check_step > 0 ∧ (t : Int) % check_step = 0 then
      env.checkerE (.checkpoint m.stateDictId t loss.data0) >>= fun _ =>
        pure [Event.checkerWrite (.checkpoint m.stateDictId t loss.data0)]
    else (pure [] : Except PyErr (List Event))) >>= fun evChk =>
  pure (loss,
    evPre ++ [Event.forwardPass t, Event.lossComputed t] ++ evPlateau ++
    [Event.zeroGrad t, Event.backwardPass t, Event.optimStepped t] ++
    (if log_step > 0 ∧ (t : Int) % log_step = 0 then [Event.logPrint t] else []) ++
    evChk)

/-- Translation of `for t in range(self.epochs)`: folds `epochBody` over the remaining
epoch indices, threading the last computed loss (`None` before the first
iteration). -/
def trainLoop (env : Env) (m : PyModel) (lf? : Option LossFn) (optim : Optim)
    (sched : Option Sched) (log_step check_step : Int) (xId yId : Nat) :
    List Nat → Option Loss → Except PyErr (Option Loss × List Event)
  | [], acc => .ok (acc, [])
  | t :: ts, _acc =>
    epochBody env m lf? optim sched log_step check_step xId yId t >>= fun step =>
    trainLoop env m lf? optim sched log_step check_step xId yId ts (some step.1) >>=
      fun rest => pure (rest.1, step.2 ++ rest.2)

namespace ModelRunner

/-- The `Except`-valued body of `fit` (the method assigns no attribute of
`self`, so the runner state is threaded unchanged by `fit` below).
Sequences: input persistence via the checker, `_d2tv` conversion of both
inputs, device placement (with CPU fallback warning), optimizer
construction from `self.optim`, optional scheduler construction, the
epoch loop, the final-loss read (`loss.data[0]`, an `AttributeError` on
`None` when the loop never ran) and the final checkpoint save. -/
def fitE (r : ModelRunner) (env : Env) (x_train y_train : PyData) :
    Except PyErr (List Event) :=
  (match r.checker with
    | none => Except.error (.typeError "NoneType object is not callable")
    | some _ => env.checkerE (.trainInputs x_train y_train)) >>= fun _ =>
  d2tv x_train >>= fun xs =>
  d2tv y_train >>= fun ys =>
  (if pyLower r.ctx = "gpu" then
      if env.cudaAvailable then
        match r.model with
        | none => Except.error (.attributeError "NoneType object has no attribute cuda")
        | some _ =>
            pure [Event.modelCuda, Event.tensorCuda "x_train", Event.tensorCuda "y_train"]
      else pure [Event.warnMsg "RuntimeWarning" "No cuda environment, use cpu fallback."]
    else
      match r.model with
      | none => Except.error (.attributeError "NoneType object has no attribute cpu")
      | some _ => pure [Event.modelCpu]) >>= fun evDev =>
  (match r.model with
    | none => Except.error (.attributeError "NoneType object has no attribute parameters")
    | some m => pure m) >>= fun m =>
  (match r.optim with
    | none => Except.error (.typeError "NoneType object is not callable")
    | some oc => oc m.paramsId r.lr) >>= fun optim =>
  (match r.lr_scheduler with
    | none => pure (none : Option Sched)
    | some sc => sc >>= fun s => pure (some s)) >>= fun sched? =>
  trainLoop env m r.loss_func optim sched? r.log_step r.check_step
    xs.payload ys.payload (List.range r.epochs) none >>= fun lp =>
  (match lp.1 with
    | none => Except.error (.attributeError "NoneType object has no attribute data")
    | some l => pure l) >>= fun lossF =>
  env.checkerE (.finalSave m.stateDictId r.epochs lossF.data0) >>= fun _ =>
  pure ([Event.checkerWrite (.trainInputs x_train y_train),
         Event.convert "x_train", Event.convert "y_train"] ++
    evDev ++ [Event.optimConstructed] ++
    (match sched? with | none => [] | some _ => [Event.schedConstructed]) ++ lp.2 ++
    [Event.checkerWrite (.finalSave m.stateDictId r.epochs lossF.data0)])

/-- Translation of `fit(x_train, y_train)`: returns `self` (the body contains no
assignment to an attribute of `self`, hence the unchanged state) next to
the outcome of the training cycle. -/
def fit (r : ModelRunner) (env : Env) (x_train y_train : PyData) :
    ModelRunner × Except PyErr (List Event) :=
  (r, fitE r env x_train y_train)

/-- The `Except`-valued body of `predict`: input persistence, `_d2tv`
conversion of `x_test` only, device placement (CPU fallback warning),
`y_test.ravel()`, the forward pass, metric computation and summary
persistence.  Returns `(y_true, y_pred)` payload handles. -/
def predictE (r : ModelRunner) (env : Env) (x_test y_test : PyData) :
    Except PyErr ((Nat × Nat) × List Event) :=
  (match r.checker with
    | none => Except.error (.typeError "NoneType object is not callable")
    | some c => pure c) >>= fun c =>
  env.checkerE (.testInputs x_test y_test) >>= fun _ =>
  d2tv x_test >>= fun xs =>
  (if pyLower r.ctx = "gpu" then
      if env.cudaAvailable then
        match r.model with
        | none => Except.error (.attributeError "NoneType object has no attribute cuda")
        | some _ => pure [Event.modelCuda, Event.tensorCuda "x_test"]
      else pure [Event.warnMsg "RuntimeWarning" "No cuda environment, use cpu fallback."]
    else
      match r.model with
      | none => Except.error (.attributeError "NoneType object has no attribute cpu")
      | some _ => pure [Event.modelCpu]) >>= fun evDev =>
  y_test.ravelE >>= fun yTrue =>
  (match r.model with
    | none => Except.error (.typeError "NoneType object is not callable")
    | some m => pure m) >>= fun m =>
  m.forwardE 0 xs.payload >>= fun yPred =>
  env.metricsE yTrue yPred >>= fun mets =>
  env.checkerE (.summary m.repr c.name mets.1 mets.2.1 mets.2.2.1 mets.2.2.2) >>= fun _ =>
  pure ((yTrue, yPred),
    [Event.checkerWrite (.testInputs x_test y_test), Event.convert "x_test"] ++
    evDev ++
    [Event.forwardPass 0, Event.metricsComputed,
     Event.checkerWrite (.summary m.repr c.name mets.1 mets.2.1 mets.2.2.1 mets.2.2.2)])

/-- Translation of `predict(x_test, y_test)`: state unchanged (no attribute assignment),
outcome from `predictE`. -/
def predict (r : ModelRunner) (env : Env) (x_test y_test : PyData) :
    ModelRunner × Except PyErr ((Nat × Nat) × List Event) :=
  (r, predictE r env x_test y_test)

end ModelRunner

/-- A value stored in the dictionary passed to `joblib.dump`. -/
inductive DumpVal where
  | modelV (m : Option PyModel)
  | plain (v : Nat)

/-- The serialization performed by `dump`: target path and the dictionary
entries, in insertion order. -/
structure DumpWrite where
  path : String
  entries : List (String × DumpVal)

namespace ModelRunner

/-- Translation of `dump(fpath, **kwargs)`: builds `dict(model=self.model, **kwargs)`
(a `TypeError` if `kwargs` itself binds `model`) and hands it to
`joblib.dump` targeting `fpath`; no attribute of `self` is assigned. -/
def dump (r : ModelRunner) (env : Env) (fpath : String)
    (kwargs : List (String × Nat)) : ModelRunner × Except PyErr DumpWrite :=
  if (kwargs.map Prod.fst).contains "model" then
    (r, .error (.typeError "dict got multiple values for keyword argument model"))
  else
    let w : DumpWrite :=
      ⟨fpath, ("model", DumpVal.modelV r.model) ::
        kwargs.map (fun kv => (kv.1, DumpVal.plain kv.2))⟩
    match env.joblibE fpath with
    | .error e => (r, .error e)
    | .ok _ => (r, .ok w)

end ModelRunner

/-! ### Spec-side trace shapes (for the phase-ordering refinement claim) -/

/-- Trace shape of the device-placement phase as the spec states it:
on a (case-insensitive) `gpu` context with CUDA available the model and
tensors move to CUDA; without CUDA a `RuntimeWarning` is issued and
nothing moves; otherwise the model is placed on CPU. -/
def deviceTraceSpec (ctx : String) (cuda : Bool) (tensors : List String) : List Event :=
  if pyLower ctx = "gpu" then
    if cuda then Event.modelCuda :: tensors.map Event.tensorCuda
    else [Event.warnMsg "RuntimeWarning" "No cuda environment, use cpu fallback."]
  else [Event.modelCpu]

/-- Trace shape of one epoch as the spec states it: forward pass, loss
computation, backward pass and optimizer step in order, a log line when
`log_step > 0` divides `t`, and a checkpoint exactly when
`check_step > 0` and `check_step` divides `t`. -/
def epochTraceSpec (log_step check_step : Int) (sdId : Nat) (lossOf : Nat → Loss)
    (t : Nat) : List Event :=
  [Event.forwardPass t, Event.lossComputed t,
   Event.zeroGrad t, Event.backwardPass t, Event.optimStepped t] ++
  (if log_step > 0 ∧ (t : Int) % log_step = 0 then [Event.logPrint t] else []) ++
  (if check_step > 0 ∧ (t : Int) % check_step = 0
   then [Event.checkerWrite (.checkpoint sdId t (lossOf t).data0)] else [])

/-- Does an outcome consist of a raised `ValueError`? -/
def isValueError {α : Type} : Except PyErr α → Bool
  | .error (.valueError _) => true
  | _ => false

/-! ### Error attribution (for the propagation claim)

`FitOwnErr`/`PredictOwnErr` enumerate, verbatim, every error the runner
itself raises in `fit`/`predict`; the `Raised` predicates say that an
error value was returned by some call into an external library
behaviour.  The propagation claim is that these cover everything. -/

/-- Errors `fit` raises by itself: calling the `None` checker, the
`_d2tv` `ValueError` on either input, device placement or parameter
access on a `None` model, calling a `None` optimizer factory or loss
function, and reading `loss.data` when the loop never ran. -/
def FitOwnErr (x y : PyData) (e : PyErr) : Prop :=
  e = .typeError "NoneType object is not callable" ∨
  e = .valueError ("need to be <numpy.ndarray> or <pandas.DataFrame> but got " ++ x.typeName) ∨
  e = .valueError ("need to be <numpy.ndarray> or <pandas.DataFrame> but got " ++ y.typeName) ∨
  e = .attributeError "NoneType object has no attribute cuda" ∨
  e = .attributeError "NoneType object has no attribute cpu" ∨
  e = .attributeError "NoneType object has no attribute parameters" ∨
  e = .attributeError "NoneType object has no attribute data"

/-- Errors `predict` raises by itself (the failed `ravel` attribute
lookup on `y_test` is attributed to `y_test` itself via `ravelE`). -/
def PredictOwnErr (x y : PyData) (e : PyErr) : Prop :=
  e = .typeError "NoneType object is not callable" ∨
  e = .valueError ("need to be <numpy.ndarray> or <pandas.DataFrame> but got " ++ x.typeName) ∨
  e = .attributeError "NoneType object has no attribute cuda" ∨
  e = .attributeError "NoneType object has no attribute cpu" ∨
  y.ravelE = .error e

/-- Holds when `e` was returned by some call on the checker collaborator. -/
def CheckerRaised (env : Env) (e : PyErr) : Prop :=
  ∃ cc, env.checkerE cc = .error e

/-- Holds when `e` was returned by the metric computations. -/
def MetricsRaised (env : Env) (e : PyErr) : Prop :=
  ∃ a b, env.metricsE a b = .error e

/-- Holds when `e` was returned by one of the library objects the runner state
references: the forward pass of the model, the loss function or the backward
pass of a loss it produced, the optimizer factory or an optimizer it
produced, or the scheduler factory or a scheduler it produced. -/
def StateLibRaised (r : ModelRunner) (e : PyErr) : Prop :=
  (∃ m, r.model = some m ∧ ∃ t i, m.forwardE t i = .error e) ∨
  (∃ lf, r.loss_func = some lf ∧
    ((∃ p q, lf p q = .error e) ∨ (∃ p q l, lf p q = .ok l ∧ l.backwardE = .error e))) ∨
  (∃ oc, r.optim = some oc ∧
    ((∃ p lr, oc p lr = .error e) ∨
     (∃ p lr o, oc p lr = .ok o ∧ ∃ t, o.zeroGradE t = .error e ∨ o.stepE t = .error e))) ∨
  (∃ sc, r.lr_scheduler = some sc ∧
    (sc = .error e ∨ ∃ s, sc = .ok s ∧ ∃ t, s.stepE t = .error e))

/-- Holds when `e` was returned by a library object used inside the epoch loop:
the forward pass, the loss function or a loss it produced, the
constructed optimizer, or the constructed scheduler. -/
def LoopLibRaised (m : PyModel) (lf? : Option LossFn) (optim : Optim)
    (sched : Option Sched) (e : PyErr) : Prop :=
  (∃ t i, m.forwardE t i = .error e) ∨
  (∃ lf, lf? = some lf ∧
    ((∃ p q, lf p q = .error e) ∨ (∃ p q l, lf p q = .ok l ∧ l.backwardE = .error e))) ∨
  (∃ t, optim.zeroGradE t = .error e ∨ optim.stepE t = .error e) ∨
  (∃ s, sched = some s ∧ ∃ t, s.stepE t = .error e)

/-! ### Concrete fixtures (used by the witnesses) -/

/-- A well-behaved `nn.Module` model: forward at step `t` yields payload
`100 + t`. -/
def okModel : PyModel :=
  { isNNModule := true, typeName := "Net", repr := "Net()", paramsId := 1,
    stateDictId := 2, forwardE := fun t _ => .ok (100 + t) }

/-- A value that is not an `nn.Module` (e.g. a plain int). -/
def badModel : PyModel :=
  { isNNModule := false, typeName := "int", repr := "7", paramsId := 0,
    stateDictId := 0, forwardE := fun _ _ => .ok 0 }

/-- A total loss function: `loss.data[0]` is the sum of the payloads. -/
def okLoss : LossFn := fun p y => .ok { data0 := p + y, backwardE := .ok () }

/-- A total optimizer factory. -/
def okOptimC : OptimCtor :=
  fun _ _ => .ok { zeroGradE := fun _ => .ok (), stepE := fun _ => .ok () }

/-- A fully successful external world without CUDA. -/
def okEnv : Env :=
  { cudaAvailable := false, checkerE := fun _ => .ok (),
    metricsE := fun a b => .ok (a, b, 7, 8), joblibE := fun _ => .ok () }

/-- An external world whose checker raises on every persistence call. -/
def diskFullEnv : Env :=
  { cudaAvailable := false, checkerE := fun _ => .error (.libraryError "disk full"),
    metricsE := fun a b => .ok (a, b, 7, 8), joblibE := fun _ => .ok () }

/-- A freshly constructed runner: 3 epochs, CPU, checkpoint every 2. -/
def r0 : ModelRunner := ModelRunner.init 3 "cpu" 2 0 none true

/-- State of `r0` after `__call__` attached `okModel` with default name/lr. -/
def rA : ModelRunner :=
  (r0.call okEnv okModel none true (some okLoss) (some okOptimC) (1 / 1000) none).1

/-- Variant of `rA` targeted at an (unavailable) GPU context. -/
def rG : ModelRunner := { rA with ctx := "GPU" }

/-- Variant of `rA` with a zero-epoch configuration. -/
def rZ : ModelRunner := { rA with epochs := 0 }

/-! ## Theorems -/

/-- Successful bind in the `Except PyErr` monad. -/
theorem ok_bind {α β : Type} (a : α) (f : α → Except PyErr β) :
    (Except.ok a >>= f : Except PyErr β) = f a := rfl

/-- Failing bind short-circuits in the `Except PyErr` monad. -/
theorem error_bind {α β : Type} (e : PyErr) (f : α → Except PyErr β) :
    ((Except.error e : Except PyErr α) >>= f) = .error e := rfl

/-- One epoch under successful collaborator behaviours produces exactly
the per-epoch trace shape (no scheduler attached). -/
theorem epochBody_benign (env : Env) (m : PyModel) (lf : LossFn) (optim : Optim)
    (ls cs : Int) (xi yi t : Nat) (pred : Nat → Nat) (lossOf : Nat → Loss)
    (hf : m.forwardE t xi = .ok (pred t))
    (hl : lf (pred t) yi = .ok (lossOf t))
    (hb : (lossOf t).backwardE = .ok ())
    (hzg : optim.zeroGradE t = .ok ())
    (hst : optim.stepE t = .ok ())
    (hck : ∀ cc, env.checkerE cc = .ok ()) :
    epochBody env m (some lf) optim none ls cs xi yi t =
      .ok (lossOf t, epochTraceSpec ls cs m.stateDictId lossOf t) := by
  simp only [epochBody, epochTraceSpec, hf, hl, hb, hzg, hst, hck, ok_bind, error_bind]
  split <;> simp [hck, ok_bind, pure, Except.pure]

/-- The training loop under successful collaborator behaviours: the last
loss threads through and the trace is the concatenation of the per-epoch
trace shapes, in epoch order. -/
theorem trainLoop_benign (env : Env) (m : PyModel) (lf : LossFn) (optim : Optim)
    (ls cs : Int) (xi yi : Nat) (pred : Nat → Nat) (lossOf : Nat → Loss)
    (hf : ∀ t, m.forwardE t xi = .ok (pred t))
    (hl : ∀ t, lf (pred t) yi = .ok (lossOf t))
    (hb : ∀ t, (lossOf t).backwardE = .ok ())
    (hzg : ∀ t, optim.zeroGradE t = .ok ())
    (hst : ∀ t, optim.stepE t = .ok ())
    (hck : ∀ cc, env.checkerE cc = .ok ()) :
    ∀ (ts : List Nat) (acc : Option Loss),
      trainLoop env m (some lf) optim none ls cs xi yi ts acc =
        .ok (ts.foldl (fun _ t => some (lossOf t)) acc,
             ts.flatMap (epochTraceSpec ls cs m.stateDictId lossOf))
  | [], acc => rfl
  | t :: ts, acc => by
    simp only [trainLoop,
      epochBody_benign env m lf optim ls cs xi yi t pred lossOf (hf t) (hl t) (hb t)
        (hzg t) (hst t) hck,
      ok_bind,
      trainLoop_benign env m lf optim ls cs xi yi pred lossOf hf hl hb hzg hst hck ts
        (some (lossOf t))]
    simp [pure, Except.pure, List.flatMap_cons, List.foldl_cons]

/-- Folding the last-loss accumulator over a nonempty epoch range yields
the loss of the final epoch. -/
theorem foldl_range_last (lossOf : Nat → Loss) (n : Nat) (h : 1 ≤ n) (acc : Option Loss) :
    (List.range n).foldl (fun _ t => some (lossOf t)) acc = some (lossOf (n - 1)) := by
  obtain ⟨k, rfl⟩ : ∃ k, n = k + 1 := ⟨n - 1, (Nat.succ_pred_eq_of_pos h).symm⟩
  rw [List.range_succ, List.foldl_append]
  simp

/-- Full trace of a successful `fit` run (model attached, collaborators
total, no scheduler): input persistence, the two conversions, device
placement, optimizer construction, the epoch loop traces in order, and
the final checkpoint save carrying the loss of the last epoch. -/
theorem fitE_benign (r : ModelRunner) (env : Env) (c : Checker) (m : PyModel)
    (lf : LossFn) (oc : OptimCtor) (optim : Optim) (x y : PyData) (xi yi : Nat)
    (pred : Nat → Nat) (lossOf : Nat → Loss)
    (hc : r.checker = some c) (hm : r.model = some m)
    (hlf : r.loss_func = some lf) (hoc : r.optim = some oc)
    (hsc : r.lr_scheduler = none)
    (hx : ModelRunner.d2tv x = .ok ⟨xi, false⟩)
    (hy : ModelRunner.d2tv y = .ok ⟨yi, false⟩)
    (hocB : oc m.paramsId r.lr = .ok optim)
    (hf : ∀ t, m.forwardE t xi = .ok (pred t))
    (hl : ∀ t, lf (pred t) yi = .ok (lossOf t))
    (hb : ∀ t, (lossOf t).backwardE = .ok ())
    (hzg : ∀ t, optim.zeroGradE t = .ok ())
    (hst : ∀ t, optim.stepE t = .ok ())
    (hck : ∀ cc, env.checkerE cc = .ok ())
    (hep : 1 ≤ r.epochs) :
    r.fitE env x y =
      .ok ([Event.checkerWrite (.trainInputs x y),
            Event.convert "x_train", Event.convert "y_train"] ++
        deviceTraceSpec r.ctx env.cudaAvailable ["x_train", "y_train"] ++
        [Event.optimConstructed] ++
        (List.range r.epochs).flatMap
          (epochTraceSpec r.log_step r.check_step m.stateDictId lossOf) ++
        [Event.checkerWrite
          (.finalSave m.stateDictId r.epochs (lossOf (r.epochs - 1)).data0)]) := by
  simp only [ModelRunner.fitE, deviceTraceSpec, hc, hx, hy, hm, hlf, hoc, hsc, hck,
    ok_bind, error_bind]
  split
  case isTrue =>
    split <;>
      simp [hocB, hck, ok_bind, pure, Except.pure,
        trainLoop_benign env m lf optim r.log_step r.check_step xi yi pred lossOf
          hf hl hb hzg hst hck,
        foldl_range_last lossOf r.epochs hep]
  case isFalse =>
    simp [hocB, hck, ok_bind, pure, Except.pure,
      trainLoop_benign env m lf optim r.log_step r.check_step xi yi pred lossOf
        hf hl hb hzg hst hck,
      foldl_range_last lossOf r.epochs hep]

/-- Full trace of a successful `predict` run: input persistence, the
`x_test` conversion, device placement, the forward pass, the metric
computation and, last, the summary persistence. -/
theorem predictE_benign (r : ModelRunner) (env : Env) (c : Checker) (m : PyModel)
    (x y : PyData) (xi ytr p0 : Nat) (mets : Nat × Nat × Nat × Nat)
    (hc : r.checker = some c) (hm : r.model = some m)
    (hx : ModelRunner.d2tv x = .ok ⟨xi, false⟩)
    (hy : y.ravelE = .ok ytr)
    (hf : m.forwardE 0 xi = .ok p0)
    (hmets : env.metricsE ytr p0 = .ok mets)
    (hck : ∀ cc, env.checkerE cc = .ok ()) :
    r.predictE env x y = .ok ((ytr, p0),
      [Event.checkerWrite (.testInputs x y), Event.convert "x_test"] ++
      deviceTraceSpec r.ctx env.cudaAvailable ["x_test"] ++
      [Event.forwardPass 0, Event.metricsComputed,
       Event.checkerWrite
         (.summary m.repr c.name mets.1 mets.2.1 mets.2.2.1 mets.2.2.2)]) := by
  simp only [ModelRunner.predictE, deviceTraceSpec, hc, hm, hx, hy, hf, hmets, hck,
    ok_bind, error_bind]
  split
  case isTrue =>
    split <;> simp [hck, hy, hf, hmets, ok_bind, pure, Except.pure]
  case isFalse =>
    simp [hck, hy, hf, hmets, ok_bind, pure, Except.pure]

set_option maxRecDepth 40000 in
/-- Sanity check: the MD5 implementation reproduces the published test
vectors. -/
theorem md5Hex_matches_test_vectors :
    md5Hex "" = "d41d8cd98f00b204e9800998ecf8427e" ∧
    md5Hex "abc" = "900150983cd24fb0d6963f7d28e17f72" := ⟨by decide, by decide⟩

/-- C1: `fit` executes input conversion, then device placement, then
optimizer construction, then the epoch loop — each iteration being
forward pass, loss computation, backward pass, optimizer step, with a
checkpoint written exactly at the epochs `t` where `check_step > 0` and
`check_step` divides `t` — followed by the final checkpoint save; and in
`predict` the metrics computation is followed by the summary
persistence. -/
theorem C1_phase_order :
    (∀ (r : ModelRunner) (env : Env) (c : Checker) (m : PyModel) (lf : LossFn)
       (oc : OptimCtor) (optim : Optim) (x y : PyData) (xi yi : Nat)
       (pred : Nat → Nat) (lossOf : Nat → Loss),
      r.checker = some c → r.model = some m → r.loss_func = some lf →
      r.optim = some oc → r.lr_scheduler = none →
      ModelRunner.d2tv x = .ok ⟨xi, false⟩ → ModelRunner.d2tv y = .ok ⟨yi, false⟩ →
      oc m.paramsId r.lr = .ok optim →
      (∀ t, m.forwardE t xi = .ok (pred t)) →
      (∀ t, lf (pred t) yi = .ok (lossOf t)) →
      (∀ t, (lossOf t).backwardE = .ok ()) →
      (∀ t, optim.zeroGradE t = .ok ()) →
      (∀ t, optim.stepE t = .ok ()) →
      (∀ cc, env.checkerE cc = .ok ()) →
      1 ≤ r.epochs →
      (r.fit env x y).2 =
        .ok ([Event.checkerWrite (.trainInputs x y),
              Event.convert "x_train", Event.convert "y_train"] ++
          deviceTraceSpec r.ctx env.cudaAvailable ["x_train", "y_train"] ++
          [Event.optimConstructed] ++
          (List.range r.epochs).flatMap
            (epochTraceSpec r.log_step r.check_step m.stateDictId lossOf) ++
          [Event.checkerWrite
            (.finalSave m.stateDictId r.epochs (lossOf (r.epochs - 1)).data0)])) ∧
    (∀ (r : ModelRunner) (env : Env) (c : Checker) (m : PyModel) (x y : PyData)
       (xi ytr p0 : Nat) (mets : Nat × Nat × Nat × Nat),
      r.checker = some c → r.model = some m →
      ModelRunner.d2tv x = .ok ⟨xi, false⟩ → y.ravelE = .ok ytr →
      m.forwardE 0 xi = .ok p0 → env.metricsE ytr p0 = .ok mets →
      (∀ cc, env.checkerE cc = .ok ()) →
      (r.predict env x y).2 = .ok ((ytr, p0),
        [Event.checkerWrite (.testInputs x y), Event.convert "x_test"] ++
        deviceTraceSpec r.ctx env.cudaAvailable ["x_test"] ++
        [Event.forwardPass 0, Event.metricsComputed,
         Event.checkerWrite
           (.summary m.repr c.name mets.1 mets.2.1 mets.2.2.1 mets.2.2.2)])) := by
  constructor
  · intro r env c m lf oc optim x y xi yi pred lossOf hc hm hlf hoc hsc hx hy hocB
      hf hl hb hzg hst hck hep
    exact fitE_benign r env c m lf oc optim x y xi yi pred lossOf hc hm hlf hoc hsc
      hx hy hocB hf hl hb hzg hst hck hep
  · intro r env c m x y xi ytr p0 mets hc hm hx hy hf hmets hck
    exact predictE_benign r env c m x y xi ytr p0 mets hc hm hx hy hf hmets hck

/-- C1 witness: a concrete 3-epoch CPU run with checkpointing every 2
epochs, and a concrete predict run. -/
theorem C1_phase_order_witness :
    (rA.fit okEnv (.ndarray 10) (.ndarray 20)).2 =
      .ok ([Event.checkerWrite (.trainInputs (.ndarray 10) (.ndarray 20)),
            Event.convert "x_train", Event.convert "y_train"] ++
        deviceTraceSpec rA.ctx okEnv.cudaAvailable ["x_train", "y_train"] ++
        [Event.optimConstructed] ++
        (List.range rA.epochs).flatMap
          (epochTraceSpec rA.log_step rA.check_step 2
            (fun t => ⟨100 + t + 20, Except.ok ()⟩)) ++
        [Event.checkerWrite (.finalSave 2 rA.epochs (100 + (rA.epochs - 1) + 20))]) ∧
    (rA.predict okEnv (.ndarray 10) (.ndarray 20)).2 =
      .ok ((20, 100),
        [Event.checkerWrite (.testInputs (.ndarray 10) (.ndarray 20)),
         Event.convert "x_test"] ++
        deviceTraceSpec rA.ctx okEnv.cudaAvailable ["x_test"] ++
        [Event.forwardPass 0, Event.metricsComputed,
         Event.checkerWrite
           (.summary "Net()" (md5Hex "Net()") 20 100 7 8)]) := by
  constructor
  · exact C1_phase_order.1 rA okEnv ⟨md5Hex "Net()", none⟩ okModel okLoss okOptimC
      ⟨fun _ => .ok (), fun _ => .ok ()⟩ (.ndarray 10) (.ndarray 20) 10 20
      (fun t => 100 + t) (fun t => ⟨100 + t + 20, Except.ok ()⟩)
      rfl rfl rfl rfl rfl rfl rfl rfl
      (fun t => rfl) (fun t => rfl) (fun t => rfl) (fun t => rfl) (fun t => rfl)
      (fun cc => rfl) (by decide)
  · exact C1_phase_order.2 rA okEnv ⟨md5Hex "Net()", none⟩ okModel
      (.ndarray 10) (.ndarray 20) 10 20 100 (20, 100, 7, 8)
      rfl rfl rfl rfl rfl rfl (fun cc => rfl)

set_option maxRecDepth 40000 in
/-- C2 counterexample: `predict` with a well-typed `x_test` but a plain
list as `y_test` raises `AttributeError` (at `y_test.ravel()`), not
`ValueError` — `y_test` never passes through `_d2tv`. -/
theorem C2_counterexample :
    (rA.predict okEnv (.ndarray 10) (.other "list")).2 =
      .error (.attributeError "list object has no attribute ravel") ∧
    isValueError (rA.predict okEnv (.ndarray 10) (.other "list")).2 = false := by
  exact ⟨by rfl, by rfl⟩

/-- C2 (amended): `__call__` raises `ValueError` for a non-`nn.Module`
model; `fit` raises `ValueError` when `x_train` or `y_train` is neither
an `ndarray` nor a `DataFrame`; `predict` raises `ValueError` when
`x_test` is neither (its `y_test` is not type-checked). -/
theorem C2_valueError_on_type_mismatch :
    (∀ (r : ModelRunner) (env : Env) (m : PyModel) (name : Option String)
       (iw : Bool) (lf : Option LossFn) (oc : Option OptimCtor) (lr : Rat)
       (sc : Option SchedCtor),
      m.isNNModule = false →
      (r.call env m name iw lf oc lr sc).2 =
        .error (.valueError
          ("Runner need a torch.nn.Module instance as first parameter but got " ++
            m.typeName))) ∧
    (∀ (r : ModelRunner) (env : Env) (c : Checker) (t : String) (y : PyData),
      r.checker = some c →
      env.checkerE (.trainInputs (.other t) y) = .ok () →
      (r.fit env (.other t) y).2 =
        .error (.valueError
          ("need to be <numpy.ndarray> or <pandas.DataFrame> but got " ++ t))) ∧
    (∀ (r : ModelRunner) (env : Env) (c : Checker) (x : PyData) (xs : Tensor)
       (t : String),
      r.checker = some c →
      env.checkerE (.trainInputs x (.other t)) = .ok () →
      ModelRunner.d2tv x = .ok xs →
      (r.fit env x (.other t)).2 =
        .error (.valueError
          ("need to be <numpy.ndarray> or <pandas.DataFrame> but got " ++ t))) ∧
    (∀ (r : ModelRunner) (env : Env) (c : Checker) (t : String) (y : PyData),
      r.checker = some c →
      env.checkerE (.testInputs (.other t) y) = .ok () →
      (r.predict env (.other t) y).2 =
        .error (.valueError
          ("need to be <numpy.ndarray> or <pandas.DataFrame> but got " ++ t))) := by
  refine ⟨?_, ?_, ?_, ?_⟩
  · intro r env m name iw lf oc lr sc hm
    simp [ModelRunner.call, hm]
  · intro r env c t y hc henv
    simp [ModelRunner.fit, ModelRunner.fitE, hc, henv, ModelRunner.d2tv,
      ok_bind, error_bind, PyData.typeName]
  · intro r env c x xs t hc henv hx
    have hy : ModelRunner.d2tv (.other t) =
        .error (.valueError
          ("need to be <numpy.ndarray> or <pandas.DataFrame> but got " ++ t)) := rfl
    simp [ModelRunner.fit, ModelRunner.fitE, hc, henv, hx, hy, ok_bind, error_bind]
  · intro r env c t y hc henv
    simp [ModelRunner.predict, ModelRunner.predictE, hc, henv, ModelRunner.d2tv,
      ok_bind, error_bind, PyData.typeName]

/-- C2 witness: all four `ValueError` paths hit at concrete inputs. -/
theorem C2_valueError_witness :
    (r0.call okEnv badModel none true none none (1 / 1000) none).2 =
      .error (.valueError
        ("Runner need a torch.nn.Module instance as first parameter but got int")) ∧
    (rA.fit okEnv (.other "list") (.ndarray 20)).2 =
      .error (.valueError
        ("need to be <numpy.ndarray> or <pandas.DataFrame> but got list")) ∧
    (rA.fit okEnv (.ndarray 10) (.other "list")).2 =
      .error (.valueError
        ("need to be <numpy.ndarray> or <pandas.DataFrame> but got list")) ∧
    (rA.predict okEnv (.other "list") (.ndarray 20)).2 =
      .error (.valueError
        ("need to be <numpy.ndarray> or <pandas.DataFrame> but got list")) := by
  refine ⟨?_, ?_, ?_, ?_⟩
  · exact C2_valueError_on_type_mismatch.1 r0 okEnv badModel none true none none
      (1 / 1000) none rfl
  · exact C2_valueError_on_type_mismatch.2.1 rA okEnv ⟨md5Hex "Net()", none⟩ "list"
      (.ndarray 20) rfl rfl
  · exact C2_valueError_on_type_mismatch.2.2.1 rA okEnv ⟨md5Hex "Net()", none⟩
      (.ndarray 10) ⟨10, false⟩ "list" rfl rfl rfl
  · exact C2_valueError_on_type_mismatch.2.2.2 rA okEnv ⟨md5Hex "Net()", none⟩ "list"
      (.ndarray 20) rfl rfl

/-- Helper: the per-epoch trace never contains a CUDA placement
event. -/
theorem modelCuda_not_mem_epochTrace (ls cs : Int) (sd : Nat) (lossOf : Nat → Loss)
    (t : Nat) : Event.modelCuda ∉ epochTraceSpec ls cs sd lossOf t := by
  simp only [epochTraceSpec, List.mem_append, List.mem_cons, List.mem_singleton]
  intro h
  rcases h with (h | h) | h
  · simp at h
  · split at h <;> simp at h
  · split at h <;> simp at h

/-- C3: on a (case-insensitively) `gpu` context without CUDA, both
`fit` and `predict` emit the `RuntimeWarning` with message
`No cuda environment, use cpu fallback.`, complete successfully, and
never move the model to CUDA. -/
theorem C3_gpu_fallback :
    (∀ (r : ModelRunner) (env : Env) (c : Checker) (m : PyModel) (lf : LossFn)
       (oc : OptimCtor) (optim : Optim) (x y : PyData) (xi yi : Nat)
       (pred : Nat → Nat) (lossOf : Nat → Loss),
      r.checker = some c → r.model = some m → r.loss_func = some lf →
      r.optim = some oc → r.lr_scheduler = none →
      ModelRunner.d2tv x = .ok ⟨xi, false⟩ → ModelRunner.d2tv y = .ok ⟨yi, false⟩ →
      oc m.paramsId r.lr = .ok optim →
      (∀ t, m.forwardE t xi = .ok (pred t)) →
      (∀ t, lf (pred t) yi = .ok (lossOf t)) →
      (∀ t, (lossOf t).backwardE = .ok ()) →
      (∀ t, optim.zeroGradE t = .ok ()) →
      (∀ t, optim.stepE t = .ok ()) →
      (∀ cc, env.checkerE cc = .ok ()) →
      1 ≤ r.epochs →
      pyLower r.ctx = "gpu" → env.cudaAvailable = false →
      ∃ evs, (r.fit env x y).2 = .ok evs ∧
        Event.warnMsg "RuntimeWarning" "No cuda environment, use cpu fallback." ∈ evs ∧
        Event.modelCuda ∉ evs) ∧
    (∀ (r : ModelRunner) (env : Env) (c : Checker) (m : PyModel) (x y : PyData)
       (xi ytr p0 : Nat) (mets : Nat × Nat × Nat × Nat),
      r.checker = some c → r.model = some m →
      ModelRunner.d2tv x = .ok ⟨xi, false⟩ → y.ravelE = .ok ytr →
      m.forwardE 0 xi = .ok p0 → env.metricsE ytr p0 = .ok mets →
      (∀ cc, env.checkerE cc = .ok ()) →
      pyLower r.ctx = "gpu" → env.cudaAvailable = false →
      ∃ out evs, (r.predict env x y).2 = .ok (out, evs) ∧
        Event.warnMsg "RuntimeWarning" "No cuda environment, use cpu fallback." ∈ evs ∧
        Event.modelCuda ∉ evs) := by
  constructor
  · intro r env c m lf oc optim x y xi yi pred lossOf hc hm hlf hoc hsc hx hy hocB
      hf hl hb hzg hst hck hep hctx hcuda
    refine ⟨_, fitE_benign r env c m lf oc optim x y xi yi pred lossOf hc hm hlf hoc
      hsc hx hy hocB hf hl hb hzg hst hck hep, ?_, ?_⟩
    · simp [deviceTraceSpec, hctx, hcuda]
    · simp only [deviceTraceSpec, hctx, hcuda, List.mem_append, List.mem_cons,
        List.mem_singleton, List.mem_flatMap, if_true, if_false]
      intro h
      rcases h with ((((h | h) | h) | h) | ⟨t, _, h⟩) | h
      · simp at h
      · simp at h
      · simp at h
      · simp at h
      · exact modelCuda_not_mem_epochTrace r.log_step r.check_step
          m.stateDictId lossOf t h
      · simp at h
  · intro r env c m x y xi ytr p0 mets hc hm hx hy hf hmets hck hctx hcuda
    refine ⟨_, _, predictE_benign r env c m x y xi ytr p0 mets hc hm hx hy hf hmets
      hck, ?_, ?_⟩
    · simp [deviceTraceSpec, hctx, hcuda]
    · simp [deviceTraceSpec, hctx, hcuda]

set_option maxRecDepth 40000 in
/-- C3 witness: a concrete `ctx="GPU"` run without CUDA warns and
succeeds for both `fit` and `predict`. -/
theorem C3_gpu_fallback_witness :
    (∃ evs, (rG.fit okEnv (.ndarray 10) (.ndarray 20)).2 = .ok evs ∧
      Event.warnMsg "RuntimeWarning" "No cuda environment, use cpu fallback." ∈ evs ∧
      Event.modelCuda ∉ evs) ∧
    (∃ out evs, (rG.predict okEnv (.ndarray 10) (.ndarray 20)).2 = .ok (out, evs) ∧
      Event.warnMsg "RuntimeWarning" "No cuda environment, use cpu fallback." ∈ evs ∧
      Event.modelCuda ∉ evs) := by
  constructor
  · exact C3_gpu_fallback.1 rG okEnv ⟨md5Hex "Net()", none⟩ okModel okLoss okOptimC
      ⟨fun _ => .ok (), fun _ => .ok ()⟩ (.ndarray 10) (.ndarray 20) 10 20
      (fun t => 100 + t) (fun t => ⟨100 + t + 20, Except.ok ()⟩)
      rfl rfl rfl rfl rfl rfl rfl rfl (fun t => rfl) (fun t => rfl) (fun t => rfl)
      (fun t => rfl) (fun t => rfl) (fun cc => rfl) (by decide) (by decide) rfl
  · exact C3_gpu_fallback.2 rG okEnv ⟨md5Hex "Net()", none⟩ okModel
      (.ndarray 10) (.ndarray 20) 10 20 100 (20, 100, 7, 8)
      rfl rfl rfl rfl rfl rfl (fun cc => rfl) (by decide) rfl

/-- C4: `__init__` leaves `checker` and `model` as `None`, and on any
runner whose `checker` is still `None`, both `fit` and `predict` fail
immediately with the `TypeError` from calling `None`, running no
training or prediction cycle. -/
theorem C4_model_attached_before_use :
    (∀ (epochs : Nat) (ctx : String) (cs ls : Int) (wd : Option String) (vb : Bool),
      (ModelRunner.init epochs ctx cs ls wd vb).checker = none ∧
      (ModelRunner.init epochs ctx cs ls wd vb).model = none) ∧
    (∀ (r : ModelRunner) (env : Env) (x y : PyData), r.checker = none →
      (r.fit env x y).2 = .error (.typeError "NoneType object is not callable")) ∧
    (∀ (r : ModelRunner) (env : Env) (x y : PyData), r.checker = none →
      (r.predict env x y).2 = .error (.typeError "NoneType object is not callable")) := by
  refine ⟨fun _ _ _ _ _ _ => ⟨rfl, rfl⟩, ?_, ?_⟩
  · intro r env x y h
    simp [ModelRunner.fit, ModelRunner.fitE, h, error_bind]
  · intro r env x y h
    simp [ModelRunner.predict, ModelRunner.predictE, h, error_bind]

/-- C4 witness: the freshly constructed `r0` has no checker/model and
both methods fail on it. -/
theorem C4_witness :
    r0.checker = none ∧ r0.model = none ∧
    (r0.fit okEnv (.ndarray 10) (.ndarray 20)).2 =
      .error (.typeError "NoneType object is not callable") ∧
    (r0.predict okEnv (.ndarray 10) (.ndarray 20)).2 =
      .error (.typeError "NoneType object is not callable") := by
  refine ⟨(C4_model_attached_before_use.1 3 "cpu" 2 0 none true).1,
    (C4_model_attached_before_use.1 3 "cpu" 2 0 none true).2, ?_, ?_⟩
  · exact C4_model_attached_before_use.2.1 r0 okEnv (.ndarray 10) (.ndarray 20) rfl
  · exact C4_model_attached_before_use.2.2 r0 okEnv (.ndarray 10) (.ndarray 20) rfl

/-- C5: `fit`, `predict` and `dump` return the runner state unchanged —
every configuration field and every transient reference keeps its value —
while `__call__`, the only method that assigns the transient references,
preserves all six configuration fields. -/
theorem C5_frame :
    (∀ (r : ModelRunner) (env : Env) (x y : PyData), (r.fit env x y).1 = r) ∧
    (∀ (r : ModelRunner) (env : Env) (x y : PyData), (r.predict env x y).1 = r) ∧
    (∀ (r : ModelRunner) (env : Env) (f : String) (k : List (String × Nat)),
      (r.dump env f k).1 = r) ∧
    (∀ (r : ModelRunner) (env : Env) (m : PyModel) (name : Option String)
       (iw : Bool) (lf : Option LossFn) (oc : Option OptimCtor) (lr : Rat)
       (sc : Option SchedCtor),
      (r.call env m name iw lf oc lr sc).1.verbose = r.verbose ∧
      (r.call env m name iw lf oc lr sc).1.check_step = r.check_step ∧
      (r.call env m name iw lf oc lr sc).1.ctx = r.ctx ∧
      (r.call env m name iw lf oc lr sc).1.epochs = r.epochs ∧
      (r.call env m name iw lf oc lr sc).1.log_step = r.log_step ∧
      (r.call env m name iw lf oc lr sc).1.work_dir = r.work_dir) := by
  refine ⟨fun _ _ _ _ => rfl, fun _ _ _ _ => rfl, ?_, ?_⟩
  · intro r env f k
    unfold ModelRunner.dump
    split
    · rfl
    · split <;> rfl
  · intro r env m name iw lf oc lr sc
    simp only [ModelRunner.call]
    split
    · exact ⟨rfl, rfl, rfl, rfl, rfl, rfl⟩
    · cases h : env.checkerE (CheckerCall.initModel m.repr) <;> simp [h]


/-- Helper: `__call__` with a falsy name stores the MD5 hex digest of
`str(model)` as the model name. -/
theorem call_default_model_name (r : ModelRunner) (env : Env) (m : PyModel)
    (name : Option String) (iw : Bool) (lf : Option LossFn) (oc : Option OptimCtor)
    (lr : Rat) (sc : Option SchedCtor)
    (hm : m.isNNModule = true) (hn : name = none ∨ name = some "") :
    ((r.call env m name iw lf oc lr sc).1).model_name = some (md5Hex m.repr) := by
  rcases hn with rfl | rfl <;>
    · simp only [ModelRunner.call, hm]
      cases h : env.checkerE (CheckerCall.initModel m.repr) <;> simp [h]

/-- C8: with a falsy `name`, `__call__` sets the model name to the MD5
hexadecimal digest of `str(model)`; hence naming is deterministic — any
two calls on models with identical string representations produce the
same name. -/
theorem C8_default_name_is_md5 :
    (∀ (r : ModelRunner) (env : Env) (m : PyModel) (name : Option String)
       (iw : Bool) (lf : Option LossFn) (oc : Option OptimCtor) (lr : Rat)
       (sc : Option SchedCtor),
      m.isNNModule = true → (name = none ∨ name = some "") →
      ((r.call env m name iw lf oc lr sc).1).model_name = some (md5Hex m.repr)) ∧
    (∀ (r1 r2 : ModelRunner) (env1 env2 : Env) (m1 m2 : PyModel)
       (iw1 iw2 : Bool) (lf1 lf2 : Option LossFn) (oc1 oc2 : Option OptimCtor)
       (lr1 lr2 : Rat) (sc1 sc2 : Option SchedCtor),
      m1.isNNModule = true → m2.isNNModule = true → m1.repr = m2.repr →
      ((r1.call env1 m1 none iw1 lf1 oc1 lr1 sc1).1).model_name =
        ((r2.call env2 m2 none iw2 lf2 oc2 lr2 sc2).1).model_name) := by
  refine ⟨call_default_model_name, ?_⟩
  intro r1 r2 env1 env2 m1 m2 iw1 iw2 lf1 lf2 oc1 oc2 lr1 lr2 sc1 sc2 h1 h2 hrepr
  rw [call_default_model_name r1 env1 m1 none iw1 lf1 oc1 lr1 sc1 h1 (Or.inl rfl),
    call_default_model_name r2 env2 m2 none iw2 lf2 oc2 lr2 sc2 h2 (Or.inl rfl),
    hrepr]

set_option maxRecDepth 40000 in
/-- C8 witness: the concrete attached model gets the actual MD5 digest
of `"Net()"` as its name. -/
theorem C8_witness :
    okModel.isNNModule = true ∧
    rA.model_name = some (md5Hex "Net()") ∧
    md5Hex "Net()" = "c3705e781a3f68432b14c0be02e4e213" := by
  refine ⟨rfl, ?_, by decide⟩
  exact C8_default_name_is_md5.1 r0 okEnv okModel none true (some okLoss)
    (some okOptimC) (1 / 1000) none rfl (Or.inl rfl)

/-- C7: `dump` hands `joblib` a dictionary whose `model` key holds the
currently attached model, followed by the supplied kwargs, targeted at
`fpath`, and leaves the runner state unchanged. -/
theorem C7_dump_serializes_model_dict :
    ∀ (r : ModelRunner) (env : Env) (fpath : String) (kwargs : List (String × Nat)),
      (kwargs.map Prod.fst).contains "model" = false →
      env.joblibE fpath = .ok () →
      r.dump env fpath kwargs =
        (r, .ok ⟨fpath, ("model", DumpVal.modelV r.model) ::
          kwargs.map (fun kv => (kv.1, DumpVal.plain kv.2))⟩) := by
  intro r env fpath kwargs hk hj
  unfold ModelRunner.dump
  rw [hk]
  simp [hj]

/-- C7 witness: a concrete dump call. -/
theorem C7_dump_witness :
    rA.dump okEnv "model.pkl" [("note", 5)] =
      (rA, .ok ⟨"model.pkl", [("model", DumpVal.modelV rA.model),
        ("note", DumpVal.plain 5)]⟩) := by
  exact C7_dump_serializes_model_dict rA okEnv "model.pkl" [("note", 5)] rfl rfl

/-- C10: when `__call__` rejects a non-`nn.Module` model with
`ValueError`, the runner state is returned exactly as it was — no
attribute has been assigned. -/
theorem C10_call_atomic_on_valueError :
    ∀ (r : ModelRunner) (env : Env) (m : PyModel) (name : Option String)
      (iw : Bool) (lf : Option LossFn) (oc : Option OptimCtor) (lr : Rat)
      (sc : Option SchedCtor),
      m.isNNModule = false →
      r.call env m name iw lf oc lr sc =
        (r, .error (.valueError
          ("Runner need a torch.nn.Module instance as first parameter but got " ++
            m.typeName))) := by
  intro r env m name iw lf oc lr sc hm
  simp [ModelRunner.call, hm]

/-- C10 witness: rejecting a plain int leaves the fresh runner
untouched. -/
theorem C10_witness :
    r0.call okEnv badModel none true none none (1 / 1000) none =
      (r0, .error (.valueError
        ("Runner need a torch.nn.Module instance as first parameter but got int"))) := by
  exact C10_call_atomic_on_valueError r0 okEnv badModel none true none none
    (1 / 1000) none rfl


/-- C9: with everything else well-behaved, `fit` on a zero-epoch
configuration never executes the loop body, so `loss` stays `None` and
the post-loop `loss.data[0]` read fails with `AttributeError` before any
final save; with `epochs >= 1` that branch is unreachable and `fit`
completes, its trace containing the final checkpoint save. -/
theorem C9_epochs_at_least_one :
    (∀ (r : ModelRunner) (env : Env) (c : Checker) (m : PyModel)
       (oc : OptimCtor) (optim : Optim) (x y : PyData) (xi yi : Nat),
      r.checker = some c → r.model = some m → r.optim = some oc →
      r.lr_scheduler = none →
      ModelRunner.d2tv x = .ok ⟨xi, false⟩ → ModelRunner.d2tv y = .ok ⟨yi, false⟩ →
      oc m.paramsId r.lr = .ok optim →
      (∀ cc, env.checkerE cc = .ok ()) →
      r.epochs = 0 →
      (r.fit env x y).2 =
        .error (.attributeError "NoneType object has no attribute data")) ∧
    (∀ (r : ModelRunner) (env : Env) (c : Checker) (m : PyModel) (lf : LossFn)
       (oc : OptimCtor) (optim : Optim) (x y : PyData) (xi yi : Nat)
       (pred : Nat → Nat) (lossOf : Nat → Loss),
      r.checker = some c → r.model = some m → r.loss_func = some lf →
      r.optim = some oc → r.lr_scheduler = none →
      ModelRunner.d2tv x = .ok ⟨xi, false⟩ → ModelRunner.d2tv y = .ok ⟨yi, false⟩ →
      oc m.paramsId r.lr = .ok optim →
      (∀ t, m.forwardE t xi = .ok (pred t)) →
      (∀ t, lf (pred t) yi = .ok (lossOf t)) →
      (∀ t, (lossOf t).backwardE = .ok ()) →
      (∀ t, optim.zeroGradE t = .ok ()) →
      (∀ t, optim.stepE t = .ok ()) →
      (∀ cc, env.checkerE cc = .ok ()) →
      1 ≤ r.epochs →
      ∃ evs, (r.fit env x y).2 = .ok evs ∧
        Event.checkerWrite
          (.finalSave m.stateDictId r.epochs (lossOf (r.epochs - 1)).data0) ∈ evs) := by
  constructor
  · intro r env c m oc optim x y xi yi hc hm hoc hsc hx hy hocB hck hep0
    simp only [ModelRunner.fit, ModelRunner.fitE, hc, hck, hx, hy, hm, hoc, hsc,
      hocB, hep0, List.range_zero, ok_bind, error_bind, trainLoop]
    split
    case isTrue => split <;> simp [hocB, hck, ok_bind, pure, Except.pure, trainLoop]
    case isFalse => simp [hocB, hck, ok_bind, pure, Except.pure, trainLoop]
  · intro r env c m lf oc optim x y xi yi pred lossOf hc hm hlf hoc hsc hx hy hocB
      hf hl hb hzg hst hck hep
    refine ⟨_, fitE_benign r env c m lf oc optim x y xi yi pred lossOf hc hm hlf hoc
      hsc hx hy hocB hf hl hb hzg hst hck hep, ?_⟩
    simp [List.mem_append]

set_option maxRecDepth 40000 in
/-- C9 witness: the zero-epoch runner `rZ` fails at the final loss read;
the 3-epoch runner `rA` completes with a final save in its trace. -/
theorem C9_witness :
    rZ.epochs = 0 ∧
    (rZ.fit okEnv (.ndarray 10) (.ndarray 20)).2 =
      .error (.attributeError "NoneType object has no attribute data") ∧
    (∃ evs, (rA.fit okEnv (.ndarray 10) (.ndarray 20)).2 = .ok evs ∧
      Event.checkerWrite (.finalSave 2 rA.epochs
        ((fun t => (⟨100 + t + 20, Except.ok ()⟩ : Loss)) (rA.epochs - 1)).data0) ∈ evs) := by
  refine ⟨rfl, ?_, ?_⟩
  · exact C9_epochs_at_least_one.1 rZ okEnv ⟨md5Hex "Net()", none⟩ okModel okOptimC
      ⟨fun _ => .ok (), fun _ => .ok ()⟩ (.ndarray 10) (.ndarray 20) 10 20
      rfl rfl rfl rfl rfl rfl rfl (fun cc => rfl) rfl
  · exact C9_epochs_at_least_one.2 rA okEnv ⟨md5Hex "Net()", none⟩ okModel okLoss
      okOptimC ⟨fun _ => .ok (), fun _ => .ok ()⟩ (.ndarray 10) (.ndarray 20) 10 20
      (fun t => 100 + t) (fun t => ⟨100 + t + 20, Except.ok ()⟩)
      rfl rfl rfl rfl rfl rfl rfl rfl (fun t => rfl) (fun t => rfl) (fun t => rfl)
      (fun t => rfl) (fun t => rfl) (fun cc => rfl) (by decide)


/-- Failing bind analysis in the `Except PyErr` monad. -/
theorem except_bind_error {α β : Type} {x : Except PyErr α} {f : α → Except PyErr β}
    {e : PyErr} (h : x >>= f = .error e) :
    x = .error e ∨ ∃ a, x = .ok a ∧ f a = .error e := by
  cases x with
  | error e2 =>
      rw [error_bind] at h
      injection h with h2
      subst h2
      exact Or.inl rfl
  | ok a => exact Or.inr ⟨a, rfl, by rwa [ok_bind] at h⟩

/-- Successful bind analysis in the `Except PyErr` monad. -/
theorem except_bind_ok {α β : Type} {x : Except PyErr α} {f : α → Except PyErr β}
    {b : β} (h : x >>= f = .ok b) : ∃ a, x = .ok a ∧ f a = .ok b := by
  cases x with
  | error e2 => rw [error_bind] at h; cases h
  | ok a => exact ⟨a, rfl, by rwa [ok_bind] at h⟩

/-- A `_d2tv` failure is always the input-type `ValueError` naming the
offending type. -/
theorem d2tv_error {x : PyData} {e : PyErr}
    (h : ModelRunner.d2tv x = .error e) :
    e = .valueError
      ("need to be <numpy.ndarray> or <pandas.DataFrame> but got " ++ x.typeName) := by
  cases x with
  | ndarray i => simp [ModelRunner.d2tv] at h
  | dataFrame i => simp [ModelRunner.d2tv] at h
  | other t =>
      simp [ModelRunner.d2tv, PyData.typeName] at h
      exact h.symm

/-- Error attribution for one epoch: any failure is the `None` loss
function `TypeError`, a checkpoint-write failure, or an error returned
verbatim by a loop collaborator. -/
theorem epochBody_error {env : Env} {m : PyModel} {lf? : Option LossFn}
    {optim : Optim} {sched : Option Sched} {ls cs : Int} {xi yi t : Nat} {e : PyErr}
    (h : epochBody env m lf? optim sched ls cs xi yi t = .error e) :
    (lf? = none ∧ e = .typeError "NoneType object is not callable") ∨
    CheckerRaised env e ∨ LoopLibRaised m lf? optim sched e := by
  unfold epochBody at h
  rcases except_bind_error h with hE | ⟨evPre, hPre, h⟩
  · right; right
    cases sched with
    | none => simp [pure, Except.pure] at hE
    | some s =>
        by_cases hp : s.isPlateau
        · simp [hp, pure, Except.pure] at hE
        · simp only [hp, Bool.false_eq_true, if_false] at hE
          rcases except_bind_error hE with hE2 | ⟨u, hu, hE3⟩
          · exact Or.inr (Or.inr (Or.inr ⟨s, rfl, t, hE2⟩))
          · simp [pure, Except.pure] at hE3
  · rcases except_bind_error h with hE | ⟨predId, hPred, h⟩
    · exact Or.inr (Or.inr (Or.inl ⟨t, xi, hE⟩))
    · rcases except_bind_error h with hE | ⟨loss, hLoss, h⟩
      · cases hlf : lf? with
        | none =>
            rw [hlf] at hE
            injection hE with h2
            exact Or.inl ⟨rfl, h2.symm⟩
        | some lf =>
            rw [hlf] at hE
            exact Or.inr (Or.inr (Or.inr (Or.inl ⟨lf, rfl, Or.inl ⟨predId, yi, hE⟩⟩)))
      · rcases except_bind_error h with hE | ⟨evPlateau, hPl, h⟩
        · right; right
          cases sched with
          | none => simp [pure, Except.pure] at hE
          | some s =>
              by_cases hp : s.isPlateau
              · simp only [hp, if_true] at hE
                rcases except_bind_error hE with hE2 | ⟨u, hu, hE3⟩
                · exact Or.inr (Or.inr (Or.inr ⟨s, rfl, t, hE2⟩))
                · simp [pure, Except.pure] at hE3
              · simp [hp, pure, Except.pure] at hE
        · rcases except_bind_error h with hE | ⟨u1, hu1, h⟩
          · exact Or.inr (Or.inr (Or.inr (Or.inr (Or.inl ⟨t, Or.inl hE⟩))))
          · rcases except_bind_error h with hE | ⟨u2, hu2, h⟩
            · cases hlf : lf? with
              | none => rw [hlf] at hLoss; simp at hLoss
              | some lf =>
                  rw [hlf] at hLoss
                  exact Or.inr (Or.inr (Or.inr (Or.inl
                    ⟨lf, rfl, Or.inr ⟨predId, yi, loss, hLoss, hE⟩⟩)))
            · rcases except_bind_error h with hE | ⟨u3, hu3, h⟩
              · exact Or.inr (Or.inr (Or.inr (Or.inr (Or.inl ⟨t, Or.inr hE⟩))))
              · rcases except_bind_error h with hE | ⟨evChk, hChk, h⟩
                · right; left
                  split at hE
                  · rcases except_bind_error hE with hE2 | ⟨u, hu, hE3⟩
                    · exact ⟨_, hE2⟩
                    · simp [pure, Except.pure] at hE3
                  · simp [pure, Except.pure] at hE
                · simp [pure, Except.pure] at h

/-- Error attribution for the whole training loop. -/
theorem trainLoop_error {env : Env} {m : PyModel} {lf? : Option LossFn}
    {optim : Optim} {sched : Option Sched} {ls cs : Int} {xi yi : Nat} {e : PyErr} :
    ∀ {ts : List Nat} {acc : Option Loss},
      trainLoop env m lf? optim sched ls cs xi yi ts acc = .error e →
      (lf? = none ∧ e = .typeError "NoneType object is not callable") ∨
      CheckerRaised env e ∨ LoopLibRaised m lf? optim sched e
  | [], acc, h => by simp [trainLoop] at h
  | t :: ts, acc, h => by
      unfold trainLoop at h
      rcases except_bind_error h with hE | ⟨step, hstep, h2⟩
      · exact epochBody_error hE
      · rcases except_bind_error h2 with hE | ⟨rest, hrest, h3⟩
        · exact trainLoop_error hE
        · simp [pure, Except.pure] at h3

/-- Loop-level error attribution transfers to the references held in the
runner state. -/
theorem loopLib_to_state {r : ModelRunner} {m : PyModel} {optim : Optim}
    {sched? : Option Sched} {oc : OptimCtor} {e : PyErr}
    (hm : r.model = some m) (hoc : r.optim = some oc)
    (hocB : oc m.paramsId r.lr = .ok optim)
    (hsched : sched? = none ∨
      ∃ sc s, r.lr_scheduler = some sc ∧ sc = .ok s ∧ sched? = some s)
    (hL : LoopLibRaised m r.loss_func optim sched? e) :
    StateLibRaised r e := by
  unfold LoopLibRaised at hL
  unfold StateLibRaised
  rcases hL with ⟨t, i, hE⟩ | ⟨lf, hlf, hrest⟩ | ⟨t, hE⟩ | ⟨s, hs, t, hE⟩
  · exact Or.inl ⟨m, hm, t, i, hE⟩
  · exact Or.inr (Or.inl ⟨lf, hlf, hrest⟩)
  · exact Or.inr (Or.inr (Or.inl ⟨oc, hoc,
      Or.inr ⟨m.paramsId, r.lr, optim, hocB, t, hE⟩⟩))
  · rcases hsched with rfl | ⟨sc, s2, hsc, hok, hEq⟩
    · cases hs
    · rw [hEq] at hs
      injection hs with h2
      subst h2
      exact Or.inr (Or.inr (Or.inr ⟨sc, hsc, Or.inr ⟨s2, hok, t, hE⟩⟩))

/-- Any error returned by `fit` is one of the seven raises of the runner itself
or a value returned verbatim by a collaborator call. -/
theorem fitE_error_attribution (r : ModelRunner) (env : Env) (x y : PyData)
    (e : PyErr) (h : (r.fit env x y).2 = .error e) :
    FitOwnErr x y e ∨ CheckerRaised env e ∨ StateLibRaised r e := by
  replace h : r.fitE env x y = .error e := h
  unfold ModelRunner.fitE at h
  rcases except_bind_error h with hE | ⟨u0, hu0, h⟩
  · cases hck : r.checker with
    | none =>
        rw [hck] at hE
        injection hE with h2
        exact Or.inl (Or.inl h2.symm)
    | some c =>
        rw [hck] at hE
        exact Or.inr (Or.inl ⟨_, hE⟩)
  · rcases except_bind_error h with hE | ⟨xs, hxs, h⟩
    · exact Or.inl (Or.inr (Or.inl (d2tv_error hE)))
    · rcases except_bind_error h with hE | ⟨ys, hys, h⟩
      · exact Or.inl (Or.inr (Or.inr (Or.inl (d2tv_error hE))))
      · rcases except_bind_error h with hE | ⟨evDev, hDev, h⟩
        · left
          unfold FitOwnErr
          cases hm : r.model with
          | none =>
              rw [hm] at hE
              split at hE
              · split at hE
                · injection hE with h2
                  exact Or.inr (Or.inr (Or.inr (Or.inl h2.symm)))
                · simp [pure, Except.pure] at hE
              · injection hE with h2
                exact Or.inr (Or.inr (Or.inr (Or.inr (Or.inl h2.symm))))
          | some m =>
              rw [hm] at hE
              split at hE
              · split at hE <;> simp [pure, Except.pure] at hE
              · simp [pure, Except.pure] at hE
        · rcases except_bind_error h with hE | ⟨m, hmE, h⟩
          · cases hm : r.model with
            | none =>
                rw [hm] at hE
                injection hE with h2
                exact Or.inl (Or.inr (Or.inr (Or.inr (Or.inr (Or.inr (Or.inl h2.symm))))))
            | some m2 => rw [hm] at hE; simp [pure, Except.pure] at hE
          · have hm : r.model = some m := by
              cases hmm : r.model with
              | none => rw [hmm] at hmE; simp [pure, Except.pure] at hmE
              | some m2 =>
                  rw [hmm] at hmE
                  simp only [pure, Except.pure] at hmE
                  injection hmE with h2
                  rw [h2]
            rcases except_bind_error h with hE | ⟨optim, hoE, h⟩
            · cases ho : r.optim with
              | none =>
                  rw [ho] at hE
                  injection hE with h2
                  exact Or.inl (Or.inl h2.symm)
              | some oc =>
                  rw [ho] at hE
                  exact Or.inr (Or.inr (Or.inr (Or.inr (Or.inl ⟨oc, ho,
                    Or.inl ⟨m.paramsId, r.lr, hE⟩⟩))))
            · have hoc : ∃ oc, r.optim = some oc ∧ oc m.paramsId r.lr = .ok optim := by
                cases hoo : r.optim with
                | none => rw [hoo] at hoE; simp at hoE
                | some oc => rw [hoo] at hoE; exact ⟨oc, rfl, hoE⟩
              rcases except_bind_error h with hE | ⟨sched?, hsE, h⟩
              · cases hs : r.lr_scheduler with
                | none => rw [hs] at hE; simp [pure, Except.pure] at hE
                | some sc =>
                    rw [hs] at hE
                    rcases except_bind_error hE with hE2 | ⟨s, hsok, hE3⟩
                    · exact Or.inr (Or.inr (Or.inr (Or.inr (Or.inr
                        ⟨sc, hs, Or.inl hE2⟩))))
                    · simp [pure, Except.pure] at hE3
              · have hsched : sched? = none ∨
                    ∃ sc s, r.lr_scheduler = some sc ∧ sc = .ok s ∧ sched? = some s := by
                  cases hss : r.lr_scheduler with
                  | none =>
                      rw [hss] at hsE
                      simp only [pure, Except.pure] at hsE
                      injection hsE with h2
                      exact Or.inl h2.symm
                  | some sc =>
                      rw [hss] at hsE
                      rcases except_bind_ok hsE with ⟨s, hsok, hval⟩
                      simp only [pure, Except.pure] at hval
                      injection hval with h2
                      exact Or.inr ⟨sc, s, rfl, hsok, h2.symm⟩
                rcases except_bind_error h with hE | ⟨lp, hlp, h⟩
                · rcases trainLoop_error hE with ⟨hnone, he⟩ | hck2 | hlib
                  · exact Or.inl (Or.inl he)
                  · exact Or.inr (Or.inl hck2)
                  · rcases hoc with ⟨oc, ho, hob⟩
                    exact Or.inr (Or.inr (loopLib_to_state hm ho hob hsched hlib))
                · rcases except_bind_error h with hE | ⟨lossF, hlF, h⟩
                  · cases hl1 : lp.1 with
                    | none =>
                        rw [hl1] at hE
                        injection hE with h2
                        exact Or.inl (Or.inr (Or.inr (Or.inr (Or.inr (Or.inr
                          (Or.inr h2.symm))))))
                    | some l => rw [hl1] at hE; simp [pure, Except.pure] at hE
                  · rcases except_bind_error h with hE | ⟨u9, hu9, h⟩
                    · exact Or.inr (Or.inl ⟨_, hE⟩)
                    · simp [pure, Except.pure] at h

/-- Any error returned by `predict` is one of the raises of the runner itself
(including the `ravel` attribute failure) or a value returned verbatim
by a collaborator call. -/
theorem predictE_error_attribution (r : ModelRunner) (env : Env) (x y : PyData)
    (e : PyErr) (h : (r.predict env x y).2 = .error e) :
    PredictOwnErr x y e ∨ CheckerRaised env e ∨ MetricsRaised env e ∨
      StateLibRaised r e := by
  replace h : r.predictE env x y = .error e := h
  unfold ModelRunner.predictE at h
  rcases except_bind_error h with hE | ⟨c, hcE, h⟩
  · cases hck : r.checker with
    | none =>
        rw [hck] at hE
        injection hE with h2
        exact Or.inl (Or.inl h2.symm)
    | some c2 => rw [hck] at hE; simp [pure, Except.pure] at hE
  · rcases except_bind_error h with hE | ⟨u1, hu1, h⟩
    · exact Or.inr (Or.inl ⟨_, hE⟩)
    · rcases except_bind_error h with hE | ⟨xs, hxs, h⟩
      · exact Or.inl (Or.inr (Or.inl (d2tv_error hE)))
      · rcases except_bind_error h with hE | ⟨evDev, hDev, h⟩
        · left
          unfold PredictOwnErr
          cases hm : r.model with
          | none =>
              rw [hm] at hE
              split at hE
              · split at hE
                · injection hE with h2
                  exact Or.inr (Or.inr (Or.inl h2.symm))
                · simp [pure, Except.pure] at hE
              · injection hE with h2
                exact Or.inr (Or.inr (Or.inr (Or.inl h2.symm)))
          | some m =>
              rw [hm] at hE
              split at hE
              · split at hE <;> simp [pure, Except.pure] at hE
              · simp [pure, Except.pure] at hE
        · rcases except_bind_error h with hE | ⟨yTrue, hyT, h⟩
          · exact Or.inl (Or.inr (Or.inr (Or.inr (Or.inr hE))))
          · rcases except_bind_error h with hE | ⟨m, hmE, h⟩
            · cases hm : r.model with
              | none =>
                  rw [hm] at hE
                  injection hE with h2
                  exact Or.inl (Or.inl h2.symm)
              | some m2 => rw [hm] at hE; simp [pure, Except.pure] at hE
            · have hm : r.model = some m := by
                cases hmm : r.model with
                | none => rw [hmm] at hmE; simp [pure, Except.pure] at hmE
                | some m2 =>
                    rw [hmm] at hmE
                    simp only [pure, Except.pure] at hmE
                    injection hmE with h2
                    rw [h2]
              rcases except_bind_error h with hE | ⟨yPred, hyP, h⟩
              · exact Or.inr (Or.inr (Or.inr (Or.inl ⟨m, hm, 0, xs.payload, hE⟩)))
              · rcases except_bind_error h with hE | ⟨mets, hmets, h⟩
                · exact Or.inr (Or.inr (Or.inl ⟨yTrue, yPred, hE⟩))
                · rcases except_bind_error h with hE | ⟨u2, hu2, h⟩
                  · exact Or.inr (Or.inl ⟨_, hE⟩)
                  · simp [pure, Except.pure] at h

/-- C6: apart from its own input-type `ValueError`s, `None`-attribute
`TypeError`/`AttributeError`s and the warning path, every error `fit` or
`predict` returns is exactly the value raised by an underlying-library
call — the runner installs no exception handler and never rewraps. -/
theorem C6_errors_propagate_unmodified :
    (∀ (r : ModelRunner) (env : Env) (x y : PyData) (e : PyErr),
      (r.fit env x y).2 = .error e →
      FitOwnErr x y e ∨ CheckerRaised env e ∨ StateLibRaised r e) ∧
    (∀ (r : ModelRunner) (env : Env) (x y : PyData) (e : PyErr),
      (r.predict env x y).2 = .error e →
      PredictOwnErr x y e ∨ CheckerRaised env e ∨ MetricsRaised env e ∨
        StateLibRaised r e) :=
  ⟨fitE_error_attribution, predictE_error_attribution⟩

set_option maxRecDepth 40000 in
/-- C6 witness: with a checker whose writes fail, both methods surface
the error object of the library itself, unmodified. -/
theorem C6_witness :
    ((rA.fit diskFullEnv (.ndarray 10) (.ndarray 20)).2 =
        .error (.libraryError "disk full") ∧
      (FitOwnErr (.ndarray 10) (.ndarray 20) (.libraryError "disk full") ∨
       CheckerRaised diskFullEnv (.libraryError "disk full") ∨
       StateLibRaised rA (.libraryError "disk full"))) ∧
    ((rA.predict diskFullEnv (.ndarray 10) (.ndarray 20)).2 =
        .error (.libraryError "disk full") ∧
      (PredictOwnErr (.ndarray 10) (.ndarray 20) (.libraryError "disk full") ∨
       CheckerRaised diskFullEnv (.libraryError "disk full") ∨
       MetricsRaised diskFullEnv (.libraryError "disk full") ∨
       StateLibRaised rA (.libraryError "disk full"))) := by
  constructor
  · exact ⟨by rfl, C6_errors_propagate_unmodified.1 rA diskFullEnv (.ndarray 10)
      (.ndarray 20) (.libraryError "disk full") (by rfl)⟩
  · exact ⟨by rfl, C6_errors_propagate_unmodified.2 rA diskFullEnv (.ndarray 10)
      (.ndarray 20) (.libraryError "disk full") (by rfl)⟩

end XenonPy